import Mathlib

/-!
Shallow embedding of the pycc orchestration core (src/pycc/core.py,
src/pycc/runner.py, src/pycc/cli.py) and proofs about it.

External effects (subprocess execution, wall-clock timing, filesystem
probes) are modelled by explicit outcome values passed to the embedded
functions; console printing is not modelled (it carries no data the
checked properties depend on). Durations (floats in the source, always
obtained from wall-clock differences) are modelled as natural numbers
of elapsed time units, with 0 the dataclass default.
-/

namespace Pycc

/-- CheckStatus enum from core.py: PASSED, FAILED, SKIPPED, ERROR. -/
inductive CheckStatus where
  | passed
  | failed
  | skipped
  | error
deriving DecidableEq, Repr

/-- CheckResult dataclass from core.py, with its field defaults
(output "", error "", duration 0). -/
structure CheckResult where
  name : String
  status : CheckStatus
  output : String := ""
  error : String := ""
  duration : Nat := 0
deriving DecidableEq, Repr

/-- A config-file template entry, the dict shape used in core.py
config_files lists: name, content, description. -/
structure ConfigFile where
  name : String
  content : String := ""
  description : String := ""
deriving DecidableEq, Repr

/-- CommandChecker construction data from core.py: name, command,
argument list, description, config-file templates. -/
structure CommandChecker where
  name : String
  command : String
  args : List String := []
  description : String := ""
  config_files : List ConfigFile := []
deriving DecidableEq, Repr

/-- Outcome of the version probe subprocess.run call made by
CommandChecker.is_available (core.py lines 74-77): the process may
complete with a return code, raise TimeoutExpired, raise
FileNotFoundError, or raise some other exception (e.g. PermissionError),
carried with its message. -/
inductive ProbeOutcome where
  | completed (returncode : Int)
  | timedOut
  | fileNotFound
  | raised (msg : String)
deriving DecidableEq, Repr

/-- CommandChecker.is_available (core.py lines 72-80) as a function of
the probe outcome. The try block returns (returncode == 0); the except
clause catches exactly subprocess.TimeoutExpired and FileNotFoundError
and returns False; any other exception propagates, modelled as
Except.error carrying the exception message. -/
def CommandChecker.isAvailableModel (_ : CommandChecker) (p : ProbeOutcome) :
    Except String Bool :=
  match p with
  | ProbeOutcome.completed rc => Except.ok (decide (rc = 0))
  | ProbeOutcome.timedOut => Except.ok false
  | ProbeOutcome.fileNotFound => Except.ok false
  | ProbeOutcome.raised msg => Except.error msg

/-- Outcome of the subprocess.run call made by CommandChecker.check
(core.py lines 90-96): completion with return code, captured stdout and
stderr, and elapsed time; or TimeoutExpired after some elapsed time; or
any other exception with message str(e) after some elapsed time. -/
inductive RunOutcome where
  | completed (returncode : Int) (stdout : String) (stderr : String) (elapsed : Nat)
  | timedOut (elapsed : Nat)
  | raised (msg : String) (elapsed : Nat)
deriving DecidableEq, Repr

/-- The timeout argument passed to subprocess.run inside
CommandChecker.check: the literal 300 at core.py line 95
("timeout=300,  # 5 minutes timeout"). No caller-supplied value reaches
this call site. -/
def checkSubprocessTimeout : Nat := 300

/-- CommandChecker.check (core.py lines 82-129) as a function of the
subprocess outcome. Return code 0 gives PASSED with stdout; nonzero
gives FAILED with stdout and stderr; TimeoutExpired gives ERROR with
the fixed timeout message; any other exception gives ERROR with str(e).
All paths carry the measured elapsed duration. -/
def CommandChecker.checkModel (c : CommandChecker) (out : RunOutcome) : CheckResult :=
  match out with
  | RunOutcome.completed rc stdout stderr elapsed =>
    if rc = 0 then
      { name := c.name, status := CheckStatus.passed, output := stdout,
        duration := elapsed }
    else
      { name := c.name, status := CheckStatus.failed, output := stdout,
        error := stderr, duration := elapsed }
  | RunOutcome.timedOut elapsed =>
    { name := c.name, status := CheckStatus.error,
      error := "Check timed out after 5 minutes", duration := elapsed }
  | RunOutcome.raised msg elapsed =>
    { name := c.name, status := CheckStatus.error, error := msg,
      duration := elapsed }

/-- Skip message from runner.py line 51:
f"Checker '{name}' is not available". -/
def skipMessage (n : String) : String :=
  "Checker '" ++ n ++ "' is not available"

/-- Decidable equality for Except values, so that concrete runs of the
embedded functions can be settled by decide. -/
instance exceptDecEq {ε α : Type} [DecidableEq ε] [DecidableEq α] :
    DecidableEq (Except ε α) := fun x y =>
  match x, y with
  | Except.ok a, Except.ok b =>
    if h : a = b then Decidable.isTrue (by rw [h])
    else Decidable.isFalse (by intro hh; cases hh; exact h rfl)
  | Except.ok _, Except.error _ => Decidable.isFalse (by intro hh; cases hh)
  | Except.error _, Except.ok _ => Decidable.isFalse (by intro hh; cases hh)
  | Except.error e, Except.error f =>
    if h : e = f then Decidable.isTrue (by rw [h])
    else Decidable.isFalse (by intro hh; cases hh; exact h rfl)

/-- A registered checker as the runner observes it during one run
(runner.py). `name` and `description` are the BaseChecker attributes;
`available` is the value its is_available() probe returns during
registry.get_available_checkers(); `behavior` is what its
check(project_path) call does this run: Except.ok r when it returns
CheckResult r, Except.error msg when it raises an exception whose
str(e) is msg. -/
structure Checker where
  name : String
  description : String := ""
  available : Bool
  behavior : Except String CheckResult
deriving DecidableEq, Repr

/-- The registry's underlying dict modelled as a list of checkers in
insertion order (core.py CheckerRegistry._checkers; dict keys are the
checker names, so names are unique in any state the program builds). -/
def memName (reg : List Checker) (n : String) : Bool :=
  reg.any (fun c => c.name == n)

/-- Dict lookup all_checkers[name] / get_checker. -/
def getChecker (reg : List Checker) (n : String) : Option Checker :=
  reg.find? (fun c => c.name == n)

/-- CheckerRegistry.get_available_checkers (core.py lines 154-160):
the sub-dict of checkers whose is_available() returns true. -/
def getAvailableCheckers (reg : List Checker) : List Checker :=
  reg.filter (fun c => c.available)

/-- CheckRunner construction data (runner.py lines 16-28). -/
structure CheckRunner where
  project_path : String
  verbose : Bool := false
  quiet : Bool := false
  json_output : Bool := false
  timeout : Nat := 300
deriving DecidableEq, Repr

/-- The timeout bound actually applied to a check executed through a
CheckRunner: CheckRunner._run_single_check calls
checker.check(self.project_path) (runner.py line 76) passing no timeout,
and CommandChecker.check passes the literal 300 to subprocess.run
(core.py line 95); self.timeout is stored (runner.py line 28) but read
nowhere. -/
def CheckRunner.effectiveCheckTimeout (_ : CheckRunner) : Nat :=
  checkSubprocessTimeout

/-- CheckRunner._run_single_check (runner.py lines 70-83) without the
progress print: returns checker.check's result, and converts any
exception raised out of check() into an ERROR CheckResult with message
"Unexpected error: " + str(e) (output and duration keep the dataclass
defaults "" and 0). Its return type is CheckResult, not Except: no
exception leaves this boundary. -/
def runSingleCheck (c : Checker) : CheckResult :=
  match c.behavior with
  | Except.ok r => r
  | Except.error msg =>
    { name := c.name, status := CheckStatus.error,
      error := "Unexpected error: " ++ msg }

/-- The skipped CheckResult appended by run_checks for a registered but
unavailable requested name (runner.py lines 47-53): name the requested
name, status SKIPPED, error the skip message, output and duration the
dataclass defaults. -/
def skipResult (n : String) : CheckResult :=
  { name := n, status := CheckStatus.skipped, error := skipMessage n }

/-- CheckRunner.run_checks (runner.py lines 30-68) without the console
prints. The filter loop walks the requested names in order: an
unregistered name is dropped (a warning only), a registered but
unavailable name appends a skipped result immediately, an available
name is queued in checkers_to_run. The run loop then walks
checkers_to_run in order and appends each executed result. Hence the
returned list is the skipped results (in request order) followed by the
executed results (in request order). -/
def runChecks (reg : List Checker) (names : List String) : List CheckResult :=
  let skipped : List CheckResult := names.filterMap (fun n =>
    if memName reg n then
      if memName (getAvailableCheckers reg) n then none
      else some (skipResult n)
    else none)
  let checkersToRun : List String := names.filter (fun n =>
    memName reg n && memName (getAvailableCheckers reg) n)
  let executed : List CheckResult := checkersToRun.filterMap (fun n =>
    (getChecker reg n).map runSingleCheck)
  skipped ++ executed

/-- The category table from cli.py get_checkers_by_category
(lines 121-131). -/
def checkersByCategory : List (String × List String) :=
  [("format", ["black", "isort"]),
   ("lint", ["flake8", "pylint"]),
   ("type", ["mypy"]),
   ("security", ["bandit", "safety"]),
   ("docs", ["pydocstyle"]),
   ("complexity", ["vulture", "radon"])]

/-- cli.py get_checkers_for_categories (lines 134-143): concatenate the
table entries of the selected categories (unknown categories contribute
nothing), then drop duplicates via list(set(checkers)). Python's set
iteration order is unspecified, so the deduplicated list is modelled by
List.dedup; every property proved about it is order-independent. -/
def getCheckersForCategories (selected : List String) : List String :=
  (((selected.filterMap (fun cat =>
      (checkersByCategory.find? (fun p => p.1 == cat)).map (fun p => p.2))).flatten).dedup)

/-- Parsed CLI arguments as main (cli.py lines 176-255) consumes them.
The two project-path booleans stand for the filesystem probes
args.project_path.exists() and args.project_path.is_dir() made at
cli.py lines 225 and 229. -/
structure Args where
  all : Bool := false
  check : Option (List String) := none
  list : Bool := false
  generate_config : Bool := false
  format : Bool := false
  lint : Bool := false
  type : Bool := false
  security : Bool := false
  docs : Bool := false
  complexity : Bool := false
  project_path_exists : Bool := true
  project_path_is_dir : Bool := true
deriving DecidableEq, Repr

/-- The selected_categories set built by main (cli.py lines 204-217),
as the list of distinct selected category names. -/
def selectedCategories (a : Args) : List String :=
  (if a.format then ["format"] else []) ++
  (if a.lint then ["lint"] else []) ++
  (if a.type then ["type"] else []) ++
  (if a.security then ["security"] else []) ++
  (if a.docs then ["docs"] else []) ++
  (if a.complexity then ["complexity"] else [])

/-- The checkers_to_run resolution in main (cli.py lines 193-222):
--all takes every available checker name, --check takes the given
names verbatim, otherwise the selected categories resolve through
get_checkers_for_categories; none selected reaches
parser.error(...), modelled as Option.none. -/
def resolveCheckers (a : Args) (reg : List Checker) : Option (List String) :=
  if a.all then some ((getAvailableCheckers reg).map (fun c => c.name))
  else
    match a.check with
    | some cs => some cs
    | none =>
      let cats := selectedCategories a
      if cats.isEmpty then none
      else some (getCheckersForCategories cats)

/-- The process exit code of main (cli.py lines 176-255) as a function
of the parsed arguments and the registry state. --list and
--generate-config return normally (exit 0); parser.error exits 2
(argparse's convention); a missing or non-directory project path exits
1 before any check runs; otherwise the run executes and the exit code
is 1 when any FAILED or ERROR result exists, else 0 (lines 245-255). -/
def mainExitCode (a : Args) (reg : List Checker) : Nat :=
  if a.list then 0
  else if a.generate_config then 0
  else
    match resolveCheckers a reg with
    | none => 2
    | some names =>
      if !a.project_path_exists then 1
      else if !a.project_path_is_dir then 1
      else
        let results := runChecks reg names
        let failedCount := results.countP (fun r => r.status == CheckStatus.failed)
        let errorCount := results.countP (fun r => r.status == CheckStatus.error)
        if failedCount > 0 || errorCount > 0 then 1 else 0

/-- CheckerRegistry.register (core.py lines 142-144) on the
CommandChecker-level registry state: dict assignment
self._checkers[checker.name] = checker, which overwrites in place when
the key exists and appends otherwise. -/
def register (reg : List CommandChecker) (c : CommandChecker) : List CommandChecker :=
  if reg.any (fun d => d.name == c.name) then
    reg.map (fun d => if d.name == c.name then c else d)
  else reg ++ [c]

/-- CheckerRegistry.get_all_checkers (core.py lines 150-152): a copy of
the dict. -/
def getAllCheckers (reg : List CommandChecker) : List CommandChecker :=
  reg

/-- The black entry of register_builtin_checkers (core.py lines 171-202). -/
def blackChecker : CommandChecker where
  name := "black"
  command := "black"
  args := ["--check", "."]
  description := "Code formatting with Black"
  config_files := [{
    name := "pyproject.toml",
    content := "[tool.black]\nline-length = 88\ntarget-version = ['py37']\ninclude = '\\.pyi?$'\nextend-exclude = '''\n/(\n  # directories\n  \\.eggs\n  | \\.git\n  | \\.hg\n  | \\.mypy_cache\n  | \\.tox\n  | \\.venv\n  | build\n  | dist\n)/\n'''\n",
    description := "Black configuration in pyproject.toml" }]

/-- The isort entry of register_builtin_checkers (core.py lines 204-223). -/
def isortChecker : CommandChecker where
  name := "isort"
  command := "isort"
  args := ["--check-only", "."]
  description := "Import sorting with isort"
  config_files := [{
    name := "pyproject.toml",
    content := "[tool.isort]\nprofile = \"black\"\nmulti_line_output = 3\nline_length = 88\nknown_first_party = [\"your_package_name\"]\n",
    description := "isort configuration in pyproject.toml" }]

/-- The flake8 entry of register_builtin_checkers (core.py lines 226-250). -/
def flake8Checker : CommandChecker where
  name := "flake8"
  command := "flake8"
  args := ["."]
  description := "Linting with Flake8"
  config_files := [{
    name := ".flake8",
    content := "[flake8]\nmax-line-length = 88\nextend-ignore = E203, W503\nexclude =\n    .git,\n    __pycache__,\n    .venv,\n    build,\n    dist,\n    *.egg-info\n",
    description := "Flake8 configuration file" }]

/-- The pylint entry of register_builtin_checkers (core.py lines 252-286). -/
def pylintChecker : CommandChecker where
  name := "pylint"
  command := "pylint"
  args := ["."]
  description := "Linting with Pylint"
  config_files := [{
    name := "pyproject.toml",
    content := "[tool.pylint.messages_control]\ndisable = [\n    \"C0114\",  # missing-module-docstring\n    \"C0115\",  # missing-class-docstring\n    \"C0116\",  # missing-function-docstring\n]\n\n[tool.pylint.format]\nmax-line-length = 88\n\n[tool.pylint.design]\nmax-args = 10\nmax-attributes = 10\nmax-bool-expr = 5\nmax-branches = 12\nmax-locals = 15\nmax-parents = 7\nmax-public-methods = 20\nmax-returns = 6\nmax-statements = 50\n",
    description := "Pylint configuration in pyproject.toml" }]

/-- The mypy entry of register_builtin_checkers (core.py lines 289-323). -/
def mypyChecker : CommandChecker where
  name := "mypy"
  command := "mypy"
  args := ["."]
  description := "Type checking with MyPy"
  config_files := [{
    name := "pyproject.toml",
    content := "[tool.mypy]\npython_version = \"3.8\"\nwarn_return_any = true\nwarn_unused_configs = true\ndisallow_untyped_defs = true\ndisallow_incomplete_defs = true\ncheck_untyped_defs = true\ndisallow_untyped_decorators = true\nno_implicit_optional = true\nwarn_redundant_casts = true\nwarn_unused_ignores = true\nwarn_no_return = true\nwarn_unreachable = true\nstrict_equality = true\n\n[[tool.mypy.overrides]]\nmodule = [\n    \"tests.*\",\n]\ndisallow_untyped_defs = false\n",
    description := "MyPy configuration in pyproject.toml" }]

/-- The bandit entry of register_builtin_checkers (core.py lines 326-342). -/
def banditChecker : CommandChecker where
  name := "bandit"
  command := "bandit"
  args := ["-r", "."]
  description := "Security linting with Bandit"
  config_files := [{
    name := ".bandit",
    content := "exclude_dirs: ['tests', 'test', 'testsuite']\nskips: ['B101', 'B601']\n",
    description := "Bandit configuration file" }]

/-- The safety entry of register_builtin_checkers (core.py lines 344-352). -/
def safetyChecker : CommandChecker where
  name := "safety"
  command := "safety"
  args := ["check"]
  description := "Security vulnerability checking with Safety"
  config_files := []

/-- The pydocstyle entry of register_builtin_checkers (core.py lines 355-373). -/
def pydocstyleChecker : CommandChecker where
  name := "pydocstyle"
  command := "pydocstyle"
  args := ["."]
  description := "Documentation style checking with Pydocstyle"
  config_files := [{
    name := "pyproject.toml",
    content := "[tool.pydocstyle]\nconvention = \"google\"\nadd_select = [\"D100\", \"D104\", \"D105\", \"D106\", \"D107\"]\nadd_ignore = [\"D100\", \"D104\"]\n",
    description := "Pydocstyle configuration in pyproject.toml" }]

/-- The vulture entry of register_builtin_checkers (core.py lines 376-384). -/
def vultureChecker : CommandChecker where
  name := "vulture"
  command := "vulture"
  args := [".", "--min-confidence=80"]
  description := "Dead code detection with Vulture"
  config_files := []

/-- The radon entry of register_builtin_checkers (core.py lines 386-394). -/
def radonChecker : CommandChecker where
  name := "radon"
  command := "radon"
  args := ["cc", ".", "--min=A"]
  description := "Cyclomatic complexity with Radon"
  config_files := []

/-- The ten CommandCheckers constructed by register_builtin_checkers
(core.py lines 167-394), in registration order. -/
def builtinCheckers : List CommandChecker :=
  [blackChecker, isortChecker, flake8Checker, pylintChecker, mypyChecker,
   banditChecker, safetyChecker, pydocstyleChecker, vultureChecker, radonChecker]

/-- register_builtin_checkers (core.py lines 167-394): registry.register
applied to each builtin checker in order. The module-level registry it
mutates starts empty (core.py line 164). -/
def registerBuiltinCheckers (reg : List CommandChecker) : List CommandChecker :=
  builtinCheckers.foldl register reg

/-- A checker whose check(), when it returns, returns a result carrying
the checker's own name. Every CommandChecker has this property (each
branch of check builds CheckResult(name=self.name, ...); see
checkModel_name below); a custom BaseChecker subclass could violate
it. -/
def wellNamed (c : Checker) : Bool :=
  match c.behavior with
  | Except.ok r => r.name == c.name
  | Except.error _ => true

/-- A checker whose check(), when it returns, never returns a SKIPPED
result. Every CommandChecker has this property (check only builds
PASSED, FAILED or ERROR results; see checkModel_not_skipped below). -/
def neverSelfSkips (c : Checker) : Bool :=
  match c.behavior with
  | Except.ok r => !(r.status == CheckStatus.skipped)
  | Except.error _ => true

/-- Test fixture: an available checker named fmt whose check passes
(the always-available, always-passing formatter of the spec's test
scenario). -/
def fmtTestChecker : Checker :=
  { name := "fmt", description := "always passing formatter",
    available := true,
    behavior := Except.ok
      { name := "fmt", status := CheckStatus.passed, output := "ok",
        duration := 1 } }

/-- Test fixture: a registered checker named lint whose underlying tool
is unavailable. -/
def lintTestChecker : Checker :=
  { name := "lint", description := "unavailable linter",
    available := false,
    behavior := Except.ok { name := "lint", status := CheckStatus.passed } }

/-- Test fixture registry holding fmt (available) and lint
(unavailable). -/
def testRegistry : List Checker :=
  [fmtTestChecker, lintTestChecker]

/-- A CheckRunner constructed with a caller-supplied timeout override
of 1 second (the CLI would build this from --timeout 1). -/
def timeoutOverrideRunner : CheckRunner :=
  { project_path := ".", timeout := 1 }

/-- Parsed arguments for an invocation naming only an unregistered
checker: pycc --check nonexistent, run from a valid project
directory. -/
def unknownNameArgs : Args :=
  { check := some ["nonexistent"] }

/-- Parsed arguments with no action and no category selected (reaching
the parser.error branch of main). -/
def noSelectionArgs : Args :=
  {}

/-- Parsed arguments for pycc --all from a valid project directory. -/
def allTestArgs : Args :=
  { all := true }

/-! Supporting lemmas shared by the claim theorems. -/

/-- Every branch of CommandChecker.check builds its result with
name=self.name. -/
theorem checkModel_name (c : CommandChecker) (out : RunOutcome) :
    (c.checkModel out).name = c.name := by
  cases out with
  | completed rc stdout stderr elapsed =>
    by_cases h : rc = 0 <;> simp [CommandChecker.checkModel, h]
  | timedOut elapsed => rfl
  | raised msg elapsed => rfl

/-- No branch of CommandChecker.check builds a SKIPPED result. -/
theorem checkModel_not_skipped (c : CommandChecker) (out : RunOutcome) :
    (c.checkModel out).status ≠ CheckStatus.skipped := by
  cases out with
  | completed rc stdout stderr elapsed =>
    by_cases h : rc = 0 <;> simp [CommandChecker.checkModel, h]
  | timedOut elapsed => simp [CommandChecker.checkModel]
  | raised msg elapsed => simp [CommandChecker.checkModel]

/-- Mapping g over a filterMap recovers the original list when f
succeeds on every element and g inverts it on the produced value. -/
theorem map_filterMap_of_inv {α β : Type} (f : α → Option β) (g : β → α) :
    ∀ l : List α, (∀ x ∈ l, ∃ y, f x = some y ∧ g y = x) →
      (l.filterMap f).map g = l := by
  intro l
  induction l with
  | nil => intro _; rfl
  | cons a l ih =>
    intro h
    obtain ⟨y, hy, hgy⟩ := h a (List.mem_cons_self a l)
    have ih2 := ih (fun x hx => h x (List.mem_cons_of_mem a hx))
    simp only [List.filterMap_cons, hy, List.map_cons, hgy, ih2]

/-- A filterMap by an everywhere-successful function preserves
length. -/
theorem length_filterMap_of_some {α β : Type} (f : α → Option β) :
    ∀ l : List α, (∀ x ∈ l, (f x).isSome) → (l.filterMap f).length = l.length := by
  intro l
  induction l with
  | nil => intro _; rfl
  | cons a l ih =>
    intro h
    obtain ⟨y, hy⟩ := Option.isSome_iff_exists.mp (h a (List.mem_cons_self a l))
    have ih2 := ih (fun x hx => h x (List.mem_cons_of_mem a hx))
    simp only [List.filterMap_cons, hy, List.length_cons, ih2]

/-- The filter pass of run_checks produces exactly the skip results of
the registered-but-unavailable requested names, in request order. -/
theorem runChecks_skip_phase (reg : List Checker) (names : List String) :
    names.filterMap (fun n =>
      if memName reg n then
        if memName (getAvailableCheckers reg) n then none
        else some (skipResult n)
      else none)
    = (names.filter (fun n =>
        memName reg n && !memName (getAvailableCheckers reg) n)).map skipResult := by
  induction names with
  | nil => rfl
  | cons n ns ih =>
    by_cases h1 : memName reg n = true
    · by_cases h2 : memName (getAvailableCheckers reg) n = true
      · simp [List.filterMap_cons, List.filter_cons, h1, h2, ih]
      · simp [List.filterMap_cons, List.filter_cons, h1, h2, ih]
    · simp [List.filterMap_cons, List.filter_cons, h1, ih]

/-- A name whose membership test succeeds resolves through getChecker
to a registered checker carrying exactly that name. -/
theorem getChecker_of_memName (reg : List Checker) (n : String)
    (h : memName reg n = true) :
    ∃ c, getChecker reg n = some c ∧ c.name = n ∧ c ∈ reg := by
  unfold memName at h
  unfold getChecker
  cases hf : reg.find? (fun c => c.name == n) with
  | none =>
    rw [List.find?_eq_none] at hf
    rw [List.any_eq_true] at h
    obtain ⟨c, hc, hcn⟩ := h
    exact absurd hcn (hf c hc)
  | some c =>
    have hp := List.find?_some hf
    exact ⟨c, rfl, eq_of_beq hp, List.mem_of_find?_eq_some hf⟩

/-- runSingleCheck returns a result named after the checker whenever
the checker is well named. -/
theorem runSingleCheck_name (c : Checker) (h : wellNamed c = true) :
    (runSingleCheck c).name = c.name := by
  unfold wellNamed at h
  unfold runSingleCheck
  cases hb : c.behavior with
  | ok r =>
    rw [hb] at h
    exact eq_of_beq h
  | error msg => rfl

/-! Claim theorems. -/

/-- C5: when the subprocess completes, exit code 0 yields PASSED with
output the captured stdout and empty error; a nonzero exit code yields
FAILED with output the captured stdout and error the captured stderr;
and exceeding the timeout yields ERROR with an error message mentioning
the timeout. -/
theorem commandChecker_check_contract (c : CommandChecker) (rc : Int)
    (so se : String) (t : Nat) :
    c.checkModel (RunOutcome.completed 0 so se t)
      = { name := c.name, status := CheckStatus.passed, output := so,
          error := "", duration := t }
    ∧ (rc ≠ 0 → c.checkModel (RunOutcome.completed rc so se t)
      = { name := c.name, status := CheckStatus.failed, output := so,
          error := se, duration := t })
    ∧ (c.checkModel (RunOutcome.timedOut t)).status = CheckStatus.error
    ∧ ∃ pre post,
        (c.checkModel (RunOutcome.timedOut t)).error = pre ++ "timed out" ++ post := by
  refine ⟨?_, ?_, rfl, "Check ", " after 5 minutes", rfl⟩
  · simp [CommandChecker.checkModel]
  · intro h
    simp [CommandChecker.checkModel, h]

/-- C5 witness: the contract applied to the black checker, with its
nonzero-exit hypothesis discharged at exit code 1. -/
theorem commandChecker_check_contract_witness :
    blackChecker.checkModel (RunOutcome.completed 1 "out" "err" 2)
      = { name := "black", status := CheckStatus.failed, output := "out",
          error := "err", duration := 2 } :=
  (commandChecker_check_contract blackChecker 1 "out" "err" 2).2.1 (by decide)

/-- C3 counterexample: a version probe that raises an exception other
than TimeoutExpired or FileNotFoundError (here a PermissionError) is
not collapsed to a boolean: is_available propagates it. -/
theorem isAvailable_raise_counterexample :
    blackChecker.isAvailableModel (ProbeOutcome.raised "PermissionError")
      = Except.error "PermissionError"
    ∧ ¬ ∃ b : Bool,
        blackChecker.isAvailableModel (ProbeOutcome.raised "PermissionError")
          = Except.ok b := by
  refine ⟨rfl, ?_⟩
  rintro ⟨b, hb⟩
  exact Except.noConfusion hb

/-- C3 amended: is_available returns a boolean on a completed probe, a
probe timeout, or a missing executable — true exactly on a zero exit
code — but any other launch failure propagates out as an exception. -/
theorem isAvailable_outcomes (c : CommandChecker) (p : ProbeOutcome) :
    (c.isAvailableModel p = Except.ok true ↔
      ∃ rc, p = ProbeOutcome.completed rc ∧ rc = 0)
    ∧ ((∃ msg, c.isAvailableModel p = Except.error msg) ↔
      ∃ msg, p = ProbeOutcome.raised msg)
    ∧ (∀ rc : Int, rc ≠ 0 →
        c.isAvailableModel (ProbeOutcome.completed rc) = Except.ok false)
    ∧ c.isAvailableModel ProbeOutcome.timedOut = Except.ok false
    ∧ c.isAvailableModel ProbeOutcome.fileNotFound = Except.ok false := by
  refine ⟨?_, ?_, ?_, rfl, rfl⟩
  · cases p with
    | completed rc =>
      constructor
      · intro h
        injection h with h2
        exact ⟨rc, rfl, of_decide_eq_true h2⟩
      · rintro ⟨rc2, heq, hrc⟩
        injection heq with h2
        subst h2
        simp [CommandChecker.isAvailableModel, hrc]
    | timedOut =>
      constructor
      · intro h
        injection h with h2
        exact absurd h2 (by decide)
      · rintro ⟨rc2, heq, hrc⟩
        exact ProbeOutcome.noConfusion heq
    | fileNotFound =>
      constructor
      · intro h
        injection h with h2
        exact absurd h2 (by decide)
      · rintro ⟨rc2, heq, hrc⟩
        exact ProbeOutcome.noConfusion heq
    | raised msg =>
      constructor
      · intro h
        exact Except.noConfusion h
      · rintro ⟨rc2, heq, hrc⟩
        exact ProbeOutcome.noConfusion heq
  · cases p with
    | completed rc =>
      constructor
      · rintro ⟨msg, h⟩
        exact Except.noConfusion h
      · rintro ⟨msg, h⟩
        exact ProbeOutcome.noConfusion h
    | timedOut =>
      constructor
      · rintro ⟨msg, h⟩
        exact Except.noConfusion h
      · rintro ⟨msg, h⟩
        exact ProbeOutcome.noConfusion h
    | fileNotFound =>
      constructor
      · rintro ⟨msg, h⟩
        exact Except.noConfusion h
      · rintro ⟨msg, h⟩
        exact ProbeOutcome.noConfusion h
    | raised msg =>
      exact ⟨fun _ => ⟨msg, rfl⟩, fun _ => ⟨msg, rfl⟩⟩
  · intro rc h
    simp [CommandChecker.isAvailableModel, h]

/-- C3 amended witness: the characterization applied to the black
checker at a zero-exit probe. -/
theorem isAvailable_outcomes_witness :
    blackChecker.isAvailableModel (ProbeOutcome.completed 0) = Except.ok true :=
  (isAvailable_outcomes blackChecker (ProbeOutcome.completed 0)).1.mpr ⟨0, rfl, rfl⟩

/-- C2: the code stores the caller-supplied timeout override on the
runner but never threads it into check; a runner built with timeout 1
still executes every check under the hardcoded 300-second subprocess
bound. -/
theorem runner_timeout_not_applied :
    timeoutOverrideRunner.timeout = 1
    ∧ timeoutOverrideRunner.effectiveCheckTimeout = 300
    ∧ timeoutOverrideRunner.effectiveCheckTimeout ≠ timeoutOverrideRunner.timeout := by
  decide

/-- C10: a checker exception is converted at the runner boundary into
an ERROR result with duration 0, empty output, and error the exception
description prefixed by "Unexpected error: ". -/
theorem runner_exception_result_fields (c : Checker) (msg : String)
    (h : c.behavior = Except.error msg) :
    runSingleCheck c
      = { name := c.name, status := CheckStatus.error, output := "",
          error := "Unexpected error: " ++ msg, duration := 0 } := by
  unfold runSingleCheck
  rw [h]

/-- C10 witness: the conversion applied to a concrete raising
checker. -/
theorem runner_exception_result_fields_witness :
    runSingleCheck
      { name := "bad", available := true, behavior := Except.error "boom" }
      = { name := "bad", status := CheckStatus.error, output := "",
          error := "Unexpected error: boom", duration := 0 } :=
  runner_exception_result_fields
    { name := "bad", available := true, behavior := Except.error "boom" } "boom" rfl

/-- C6: run_checks is total over arbitrary checker behaviors — a
raising checker becomes an ERROR result at the runner boundary (its
return type is CheckResult, not an exception), and the run still
produces one result per requested registered name, skipped or executed,
whatever any checker's behavior was. -/
theorem runChecks_catches_and_continues (reg : List Checker) (names : List String) :
    (runChecks reg names).length
      = (names.filter (fun n =>
          memName reg n && !memName (getAvailableCheckers reg) n)).length
        + (names.filter (fun n =>
            memName reg n && memName (getAvailableCheckers reg) n)).length
    ∧ ∀ c : Checker, ∀ msg : String, c.behavior = Except.error msg →
        (runSingleCheck c).status = CheckStatus.error := by
  constructor
  · unfold runChecks
    rw [List.length_append]
    congr 1
    · rw [runChecks_skip_phase, List.length_map]
    · apply length_filterMap_of_some
      intro n hn
      obtain ⟨hn1, hn2⟩ := List.mem_filter.mp hn
      simp only [Bool.and_eq_true] at hn2
      obtain ⟨c, hc, _, _⟩ := getChecker_of_memName reg n hn2.1
      rw [hc]
      rfl
  · intro c msg hb
    unfold runSingleCheck
    rw [hb]

/-- C6 witness: a registry whose only available checker raises still
yields one result per requested registered name, and the conversion
hypothesis is discharged on that raising checker. -/
theorem runChecks_catches_and_continues_witness :
    (runChecks
        [{ name := "bad", available := true, behavior := Except.error "boom" },
         lintTestChecker]
        ["bad", "lint"]).length
      = (["bad", "lint"].filter (fun n =>
          memName [{ name := "bad", available := true, behavior := Except.error "boom" },
            lintTestChecker] n
          && !memName (getAvailableCheckers
            [{ name := "bad", available := true, behavior := Except.error "boom" },
             lintTestChecker]) n)).length
        + (["bad", "lint"].filter (fun n =>
            memName [{ name := "bad", available := true, behavior := Except.error "boom" },
              lintTestChecker] n
            && memName (getAvailableCheckers
              [{ name := "bad", available := true, behavior := Except.error "boom" },
               lintTestChecker]) n)).length
    ∧ (runSingleCheck
        { name := "bad", available := true, behavior := Except.error "boom" }).status
      = CheckStatus.error := by
  constructor
  · exact (runChecks_catches_and_continues
      [{ name := "bad", available := true, behavior := Except.error "boom" },
       lintTestChecker] ["bad", "lint"]).1
  · exact (runChecks_catches_and_continues
      [{ name := "bad", available := true, behavior := Except.error "boom" },
       lintTestChecker] ["bad", "lint"]).2
      { name := "bad", available := true, behavior := Except.error "boom" } "boom" rfl

/-- C1 counterexample: requesting the available fmt before the
unavailable lint returns the lint skip result first — run_checks does
not preserve request order between skipped and executed entries. -/
theorem runChecks_request_order_counterexample :
    (runChecks testRegistry ["fmt", "lint"]).map (fun r => r.name) = ["lint", "fmt"]
    ∧ ["fmt", "lint"].filter (fun n => memName testRegistry n) = ["fmt", "lint"]
    ∧ (runChecks testRegistry ["fmt", "lint"]).map (fun r => r.name)
      ≠ ["fmt", "lint"] := by
  decide

/-- C1 amended: run_checks returns all skip results first, in request
order of the registered-but-unavailable names, followed by the executed
results, in request order of the available names (stated on result
names, for checkers whose results carry their own name, as every
CommandChecker's do). -/
theorem runChecks_skips_precede_executed (reg : List Checker) (names : List String)
    (h : ∀ c ∈ reg, wellNamed c = true) :
    (runChecks reg names).map (fun r => r.name)
      = names.filter (fun n =>
          memName reg n && !memName (getAvailableCheckers reg) n)
        ++ names.filter (fun n =>
            memName reg n && memName (getAvailableCheckers reg) n) := by
  unfold runChecks
  rw [List.map_append]
  congr 1
  · rw [runChecks_skip_phase, List.map_map]
    have h2 : ((fun r : CheckResult => r.name) ∘ skipResult) = fun n => n := rfl
    rw [h2, List.map_id']
  · apply map_filterMap_of_inv
    intro n hn
    obtain ⟨hn1, hn2⟩ := List.mem_filter.mp hn
    simp only [Bool.and_eq_true] at hn2
    obtain ⟨c, hc, hcn, hcm⟩ := getChecker_of_memName reg n hn2.1
    refine ⟨runSingleCheck c, by rw [hc]; rfl, ?_⟩
    rw [runSingleCheck_name c (h c hcm), hcn]

/-- C1 amended witness: the order statement applied to the fmt/lint
fixture registry, with the well-namedness hypothesis discharged by
evaluation. -/
theorem runChecks_skips_precede_executed_witness :
    (runChecks testRegistry ["fmt", "lint"]).map (fun r => r.name)
      = ["fmt", "lint"].filter (fun n =>
          memName testRegistry n && !memName (getAvailableCheckers testRegistry) n)
        ++ ["fmt", "lint"].filter (fun n =>
            memName testRegistry n && memName (getAvailableCheckers testRegistry) n) :=
  runChecks_skips_precede_executed testRegistry ["fmt", "lint"] (by decide)

/-- C7: for checkers that never return SKIPPED themselves (as no
CommandChecker does), the skipped results of a run are exactly the
filter-phase skip records of the registered-but-unavailable requested
names, one per request in request order, each with the requested name,
SKIPPED status, empty output, the explanatory message in its error
field, and duration 0. -/
theorem runChecks_skipped_results (reg : List Checker) (names : List String)
    (h : ∀ c ∈ reg, neverSelfSkips c = true) :
    (runChecks reg names).filter (fun r => r.status == CheckStatus.skipped)
      = (names.filter (fun n =>
          memName reg n && !memName (getAvailableCheckers reg) n)).map skipResult := by
  unfold runChecks
  rw [List.filter_append]
  have hA : (names.filterMap (fun n =>
      if memName reg n then
        if memName (getAvailableCheckers reg) n then none
        else some (skipResult n)
      else none)).filter (fun r => r.status == CheckStatus.skipped)
      = (names.filter (fun n =>
          memName reg n && !memName (getAvailableCheckers reg) n)).map skipResult := by
    rw [runChecks_skip_phase]
    apply List.filter_eq_self.mpr
    intro r hr
    obtain ⟨n, hn, hrn⟩ := List.mem_map.mp hr
    rw [← hrn]
    rfl
  have hB : ((names.filter (fun n =>
      memName reg n && memName (getAvailableCheckers reg) n)).filterMap
        (fun n => (getChecker reg n).map runSingleCheck)).filter
          (fun r => r.status == CheckStatus.skipped) = [] := by
    apply List.filter_eq_nil_iff.mpr
    intro r hr
    obtain ⟨n, hn, hfn⟩ := List.mem_filterMap.mp hr
    obtain ⟨c, hc, hcr⟩ := Option.map_eq_some'.mp hfn
    have hcm : c ∈ reg := List.mem_of_find?_eq_some hc
    have hs := h c hcm
    unfold neverSelfSkips at hs
    rw [← hcr]
    unfold runSingleCheck
    cases hb : c.behavior with
    | ok r2 =>
      rw [hb] at hs
      simpa using hs
    | error msg =>
      simp
  rw [hA, hB, List.append_nil]

/-- C7 witness: the skipped-results characterization applied to the
fmt/lint fixture registry, hypothesis discharged by evaluation. -/
theorem runChecks_skipped_results_witness :
    (runChecks testRegistry ["fmt", "lint"]).filter
        (fun r => r.status == CheckStatus.skipped)
      = (["fmt", "lint"].filter (fun n =>
          memName testRegistry n
            && !memName (getAvailableCheckers testRegistry) n)).map skipResult :=
  runChecks_skipped_results testRegistry ["fmt", "lint"] (by decide)

/-- C4 counterexample: an invocation naming only an unregistered
checker is not fatal and not surfaced as a usage error — the name is
dropped with a warning, no result is produced for it, and the process
exits 0; and the no-checkers-selected usage error exits with argparse's
code 2, not 1. -/
theorem main_unknown_checker_counterexample :
    mainExitCode unknownNameArgs testRegistry = 0
    ∧ runChecks testRegistry ["nonexistent"] = []
    ∧ mainExitCode noSelectionArgs testRegistry = 2 := by
  decide

/-- C4 amended: for a run invocation (not --list or --generate-config),
an empty selection exits 2 via parser.error; a missing or
non-directory project path exits 1 before any check; otherwise the
exit code is 0 exactly when every result of the run is PASSED or
SKIPPED (and 1 otherwise). Unknown checker names are dropped by the
runner with a warning and do not affect the exit code. -/
theorem mainExitCode_spec (a : Args) (reg : List Checker)
    (hl : a.list = false) (hg : a.generate_config = false) :
    (resolveCheckers a reg = none → mainExitCode a reg = 2)
    ∧ ∀ names, resolveCheckers a reg = some names →
        ((a.project_path_exists = false ∨ a.project_path_is_dir = false) →
          mainExitCode a reg = 1)
        ∧ (a.project_path_exists = true → a.project_path_is_dir = true →
            (mainExitCode a reg = 0 ↔
              ∀ r ∈ runChecks reg names,
                r.status = CheckStatus.passed ∨ r.status = CheckStatus.skipped)) := by
  constructor
  · intro hres
    simp [mainExitCode, hl, hg, hres]
  · intro names hres
    constructor
    · intro hpath
      cases he : a.project_path_exists with
      | false => simp [mainExitCode, hl, hg, hres, he]
      | true =>
        cases hd : a.project_path_is_dir with
        | false => simp [mainExitCode, hl, hg, hres, he, hd]
        | true =>
          rcases hpath with hp | hp
          · rw [he] at hp
            exact absurd hp (by decide)
          · rw [hd] at hp
            exact absurd hp (by decide)
    · intro he hd
      have hmain : mainExitCode a reg =
          if (runChecks reg names).countP
              (fun r => r.status == CheckStatus.failed) > 0
            || (runChecks reg names).countP
              (fun r => r.status == CheckStatus.error) > 0
          then 1 else 0 := by
        simp [mainExitCode, hl, hg, hres, he, hd]
      rw [hmain]
      by_cases hf : 0 < (runChecks reg names).countP
          (fun r => r.status == CheckStatus.failed)
      · rw [if_pos (by simp [hf])]
        constructor
        · intro h
          exact absurd h (by decide)
        · intro hall
          exfalso
          obtain ⟨r, hr, hb⟩ := List.countP_pos_iff.mp hf
          have hrs := eq_of_beq hb
          rcases hall r hr with hp | hp <;> rw [hp] at hrs <;> exact CheckStatus.noConfusion hrs
      · by_cases herr : 0 < (runChecks reg names).countP
            (fun r => r.status == CheckStatus.error)
        · rw [if_pos (by simp [herr])]
          constructor
          · intro h
            exact absurd h (by decide)
          · intro hall
            exfalso
            obtain ⟨r, hr, hb⟩ := List.countP_pos_iff.mp herr
            have hrs := eq_of_beq hb
            rcases hall r hr with hp | hp <;> rw [hp] at hrs <;>
              exact CheckStatus.noConfusion hrs
        · rw [if_neg (by simp [hf, herr])]
          constructor
          · intro _ r hr
            have hf0 : (runChecks reg names).countP
                (fun r => r.status == CheckStatus.failed) = 0 :=
              Nat.eq_zero_of_not_pos hf
            have he0 : (runChecks reg names).countP
                (fun r => r.status == CheckStatus.error) = 0 :=
              Nat.eq_zero_of_not_pos herr
            have hnf := List.countP_eq_zero.mp hf0 r hr
            have hne := List.countP_eq_zero.mp he0 r hr
            cases hst : r.status with
            | passed => exact Or.inl rfl
            | skipped => exact Or.inr rfl
            | failed =>
              exfalso
              exact hnf (by rw [hst]; rfl)
            | error =>
              exfalso
              exact hne (by rw [hst]; rfl)
          · intro _
            rfl

/-- C4 amended witness: pycc --all on the fixture registry runs the one
available always-passing checker and exits 0; the hypotheses and the
iff are discharged at that concrete input. -/
theorem mainExitCode_spec_witness :
    mainExitCode allTestArgs testRegistry = 0 := by
  have h := (mainExitCode_spec allTestArgs testRegistry rfl rfl).2
      ["fmt"] (by decide)
  exact (h.2 rfl rfl).mpr (by decide)

/-- C8: running the builtin bootstrap twice from the registry's initial
empty state leaves get_all_checkers unchanged — the registration of
each builtin name overwrites with an identical checker, so the second
pass is a no-op (same names, same descriptions, indeed the same
registry content). -/
theorem registerBuiltinCheckers_idempotent :
    getAllCheckers (registerBuiltinCheckers (registerBuiltinCheckers []))
      = getAllCheckers (registerBuiltinCheckers []) := by
  rfl

/-- C9: the category resolver returns a duplicate-free list whose
members are exactly the union of the fixed table entries of the
selected categories; in particular the category set consisting of
format alone resolves to exactly black and isort. -/
theorem getCheckersForCategories_spec (selected : List String) :
    (getCheckersForCategories selected).Nodup
    ∧ (∀ n, n ∈ getCheckersForCategories selected ↔
        ∃ cat, cat ∈ selected ∧ ∃ entry,
          checkersByCategory.find? (fun q => q.1 == cat) = some entry ∧ n ∈ entry.2)
    ∧ getCheckersForCategories ["format"] = ["black", "isort"] := by
  refine ⟨List.nodup_dedup _, ?_, by decide⟩
  intro n
  unfold getCheckersForCategories
  rw [List.mem_dedup, List.mem_flatten]
  constructor
  · rintro ⟨l, hl, hnl⟩
    obtain ⟨cat, hcat, hf⟩ := List.mem_filterMap.mp hl
    obtain ⟨entry, hentry, hl2⟩ := Option.map_eq_some'.mp hf
    refine ⟨cat, hcat, entry, hentry, ?_⟩
    rw [hl2]
    exact hnl
  · rintro ⟨cat, hcat, entry, hentry, hne⟩
    refine ⟨entry.2, List.mem_filterMap.mpr ⟨cat, hcat, ?_⟩, hne⟩
    rw [hentry]
    rfl

end Pycc
